/-
Verification of the mongodb-online-orders repository.

The repository is a three-stage batch ETL pipeline:
  * generate_csv_data.py — synthesizes categories, products and flat
    order-line rows and writes them to delimited files;
  * create_collections.py — drops and recreates three schema-validated
    collections;
  * load_csv_data.py — reads the files back and loads them, grouping flat
    order lines into nested order documents;
  * visualize_data.py — read-only reporting over a module-level connection.

This file shallowly embeds those Python modules as executable Lean
definitions and proves the specification claims about them.  Library calls
(pandas groupby, csv writing, faker randomness, Decimal128 parsing,
datetime.isoformat) are modelled by their documented semantics; randomness
is modelled by explicit streams of draws, with `random_int lo hi` realised
as `lo + draw % (hi - lo + 1)` so that the documented range contract holds
by construction.
-/
import Mathlib

namespace OnlineOrders

/-! ## generate_csv_data.py — static reference data -/

/-- A category row as produced by `_categories_data()`. -/
structure Category where
  id : Nat
  name : String
deriving DecidableEq, Repr

/-- A product row as produced by `_products_data()`: id, name, category
reference and the static price (a decimal literal in the source, embedded
as an exact rational). -/
structure Product where
  id : Nat
  name : String
  category_id : Nat
  price : ℚ
deriving DecidableEq, Repr

/-- `_categories_data()` — the five fixed categories. -/
def categoriesData : List Category :=
  [⟨1, "Electronics"⟩, ⟨2, "Books"⟩, ⟨3, "Home & Kitchen"⟩,
   ⟨4, "Sports"⟩, ⟨5, "Clothing"⟩]

/-- `_products_data()` — the fifty fixed products with static prices. -/
def productsData : List Product :=
  [⟨1, "Laptop", 1, 1799.99⟩,
   ⟨2, "Smartphone", 1, 150.67⟩,
   ⟨3, "Headphones", 1, 49.12⟩,
   ⟨4, "Tablet", 1, 299.34⟩,
   ⟨5, "Camera", 1, 399.56⟩,
   ⟨6, "E-book Reader", 2, 119.78⟩,
   ⟨7, "Cookbook", 2, 24.34⟩,
   ⟨8, "Novel", 2, 14.67⟩,
   ⟨9, "Textbook", 2, 79.23⟩,
   ⟨10, "Blender", 3, 59.45⟩,
   ⟨11, "Coffee Maker", 3, 99.78⟩,
   ⟨12, "Microwave", 3, 149.34⟩,
   ⟨13, "Vacuum Cleaner", 3, 199.56⟩,
   ⟨14, "Soccer Ball", 4, 29.12⟩,
   ⟨15, "Tennis Racket", 4, 69.34⟩,
   ⟨16, "Basketball", 4, 24.56⟩,
   ⟨17, "Yoga Mat", 4, 19.78⟩,
   ⟨18, "Running Shoes", 4, 89.23⟩,
   ⟨19, "T-shirt", 5, 14.45⟩,
   ⟨20, "Jeans", 5, 39.78⟩,
   ⟨21, "Jacket", 5, 59.34⟩,
   ⟨22, "Sneakers", 5, 49.56⟩,
   ⟨23, "Dress", 5, 69.12⟩,
   ⟨24, "Smartwatch", 1, 249.34⟩,
   ⟨25, "Monitor", 1, 179.56⟩,
   ⟨26, "Keyboard", 1, 39.12⟩,
   ⟨27, "Mouse", 1, 19.34⟩,
   ⟨28, "Printer", 1, 119.56⟩,
   ⟨29, "Fiction Book", 2, 9.78⟩,
   ⟨30, "Non-fiction Book", 2, 19.23⟩,
   ⟨31, "Mystery Book", 2, 14.45⟩,
   ⟨32, "Science Book", 2, 29.78⟩,
   ⟨33, "Toaster", 3, 24.34⟩,
   ⟨34, "Mixer", 3, 44.56⟩,
   ⟨35, "Air Fryer", 3, 99.12⟩,
   ⟨36, "Grill", 3, 149.78⟩,
   ⟨37, "Dumbbells", 4, 49.34⟩,
   ⟨38, "Treadmill", 4, 499.56⟩,
   ⟨39, "Exercise Bike", 4, 299.12⟩,
   ⟨40, "Golf Clubs", 4, 399.34⟩,
   ⟨41, "Hat", 5, 19.56⟩,
   ⟨42, "Scarf", 5, 24.12⟩,
   ⟨43, "Gloves", 5, 14.34⟩,
   ⟨44, "Socks", 5, 9.56⟩,
   ⟨45, "Belt", 5, 29.12⟩,
   ⟨46, "Smart TV", 1, 599.34⟩,
   ⟨47, "Gaming Console", 1, 399.56⟩,
   ⟨48, "Router", 1, 79.12⟩,
   ⟨49, "External Hard Drive", 1, 99.34⟩,
   ⟨50, "Webcam", 1, 69.56⟩]

/-! ## Randomness and datetimes

`fake.random_int(min=lo, max=hi)` draws a uniform integer in `[lo, hi]`.
We model each call as consuming one raw draw `r : Nat` from a stream and
returning `lo + r % (hi - lo + 1)`, which realises exactly the documented
range contract. -/

/-- Model of `fake.random_int(min=lo, max=hi)` applied to raw draw `r`. -/
def randomInt (r lo hi : Nat) : Nat := lo + r % (hi - lo + 1)

/-- A calendar timestamp at second resolution, the shape returned by
`fake.date_time_between(...)`. -/
structure DateTime where
  year : Nat
  month : Nat
  day : Nat
  hour : Nat
  minute : Nat
  second : Nat
deriving DecidableEq, Repr

/-- Field ranges of a well-formed calendar timestamp. -/
def ValidDateTime (dt : DateTime) : Prop :=
  1000 ≤ dt.year ∧ dt.year ≤ 9999 ∧ 1 ≤ dt.month ∧ dt.month ≤ 12 ∧
  1 ≤ dt.day ∧ dt.day ≤ 31 ∧ dt.hour ≤ 23 ∧ dt.minute ≤ 59 ∧ dt.second ≤ 59

instance (dt : DateTime) : Decidable (ValidDateTime dt) := by
  unfold ValidDateTime; infer_instance

/-- Modelled from the library contract: `fake.date_time_between(start_date=
datetime.date(2022, 1, 1), end_date="now")` returns a valid timestamp
between 2022-01-01 and the current moment.  The raw draw `r` is spread over
the calendar fields so that validity holds by construction. -/
def dateTimeBetween (r : Nat) : DateTime :=
  ⟨2022 + r % 5, 1 + (r / 5) % 12, 1 + (r / 60) % 28,
   (r / 1680) % 24, (r / 40320) % 60, (r / 2419200) % 60⟩

/-- The decimal digit character for `n % 10`. -/
def digitChar (n : Nat) : Char := Char.ofNat (48 + n % 10)

/-- Two-digit zero-padded decimal rendering (values below 100). -/
def pad2 (n : Nat) : String := String.mk [digitChar (n / 10), digitChar n]

/-- Four-digit zero-padded decimal rendering (values below 10000). -/
def pad4 (n : Nat) : String :=
  String.mk [digitChar (n / 1000), digitChar (n / 100), digitChar (n / 10), digitChar n]

/-- Model of `datetime.isoformat(timespec="seconds")`:
`YYYY-MM-DDTHH:MM:SS`. -/
def isoformatSeconds (dt : DateTime) : String :=
  pad4 dt.year ++ "-" ++ pad2 dt.month ++ "-" ++ pad2 dt.day ++ "T" ++
  pad2 dt.hour ++ ":" ++ pad2 dt.minute ++ ":" ++ pad2 dt.second

/-- Syntactic shape of an ISO-8601 second-resolution timestamp with a
trailing literal `Z`: exactly `DDDD-DD-DDTDD:DD:DDZ` with `D` a decimal
digit. -/
def isIsoZ (s : String) : Bool :=
  match s.data with
  | [y1, y2, y3, y4, h1, m1, m2, h2, d1, d2, t, hh1, hh2, c1, mi1, mi2, c2, s1, s2, z] =>
    y1.isDigit && y2.isDigit && y3.isDigit && y4.isDigit && h1 == '-' &&
    m1.isDigit && m2.isDigit && h2 == '-' && d1.isDigit && d2.isDigit &&
    t == 'T' && hh1.isDigit && hh2.isDigit && c1 == ':' && mi1.isDigit &&
    mi2.isDigit && c2 == ':' && s1.isDigit && s2.isDigit && z == 'Z'
  | _ => false

/-! ## generate_csv_data.py — order generation -/

/-- One flat order-line row as written to `orders.csv` by
`generate_orders_csv` (numeric fields kept at their generated values; the
`date` field is the already-rendered text). -/
structure OrderRow where
  id : Nat
  customer_id : Nat
  date : String
  product_id : Nat
  product_quantity : Nat
  product_unit_value : ℚ
deriving DecidableEq, Repr

/-- The independent random draws consumed by `generate_orders_csv`,
indexed by order number (and line number for per-line draws). -/
structure OrderRng where
  cust : Nat → Nat
  date : Nat → Nat
  nlines : Nat → Nat
  prod : Nat → Nat → Nat
  qty : Nat → Nat → Nat

/-- The header row written first by `generate_orders_csv`. -/
def ordersCsvHeader : List String :=
  ["id", "customer_id", "date", "product_id", "product_quantity", "product_unit_value"]

/-- The body of one iteration of the outer loop of `generate_orders_csv`:
order `i` draws a customer id, a date and a number of lines, then writes
one row per line with a drawn product id, quantity, and the static price of
the product at index `product_id - 1`. -/
def generateOrderLines (g : OrderRng) (i : Nat) : List OrderRow :=
  let customer_id := randomInt (g.cust i) 1000 6000
  let date := isoformatSeconds (dateTimeBetween (g.date i)) ++ "Z"
  let numLines := randomInt (g.nlines i) 1 3
  (List.range numLines).map (fun j =>
    let product_id := randomInt (g.prod i j) 1 productsData.length
    let product_quantity := randomInt (g.qty i j) 1 2
    let product_unit_value := (productsData.getD (product_id - 1) ⟨0, "", 0, 0⟩).price
    ⟨i, customer_id, date, product_id, product_quantity, product_unit_value⟩)

/-- The per-order blocks of rows produced by `generate_orders_csv` for
`num_records` orders. -/
def ordersBlocks (g : OrderRng) (num_records : Nat) : List (List OrderRow) :=
  (List.range num_records).map (generateOrderLines g)

/-- `generate_orders_csv(file_path, num_records)`: the written file,
modelled as the header row plus the flat sequence of order-line rows. -/
def generateOrdersCsv (g : OrderRng) (num_records : Nat) :
    List String × List OrderRow :=
  (ordersCsvHeader, (ordersBlocks g num_records).flatten)

/-- The grouping triple of a generated row. -/
def genKey (r : OrderRow) : Nat × Nat × String := (r.id, r.customer_id, r.date)

/-! ## load_csv_data.py — Decimal128

`Decimal128(str(v).replace(",", "."))` (line 95) builds an IEEE decimal
from the textual form of the unit value after normalising a comma decimal
separator.  Decimal128 represents up to 34 significant decimal digits
exactly; for the digit strings that occur here its value is modelled as an
exact rational.  A malformed string makes the constructor raise, modelled
as `none`. -/

/-- The numeric value of a decimal digit character. -/
def digitVal (c : Char) : Nat := c.toNat - 48

/-- Digit-by-digit scan of a decimal string: accumulates the mantissa with
Horner steps and counts the digits seen after the decimal point.  Returns
`none` at any character that is neither a digit nor a first `.`. -/
def parseDecLoop : List Char → Nat → Nat → Bool → Option (Nat × Nat)
  | [], acc, fracDigits, _ => some (acc, fracDigits)
  | c :: cs, acc, fracDigits, seenDot =>
    if c = '.' then
      if seenDot then none else parseDecLoop cs acc fracDigits true
    else if c.isDigit then
      parseDecLoop cs (acc * 10 + digitVal c) (if seenDot then fracDigits + 1 else fracDigits) seenDot
    else
      none

/-- The canonical base-10 value of a digit string, read positionally
(most significant digit first). -/
def digitsVal (ds : List Char) : ℕ :=
  Nat.ofDigits 10 ((ds.map digitVal).reverse)

/-- Model of Python's `str.replace(a, b)` for a single-character pattern,
as used at line 95 with `.replace(",", ".")`. -/
def replaceChar (s : String) (a b : Char) : String :=
  String.mk (s.data.map (fun c => if c = a then b else c))

/-- Model of the `Decimal128` constructor on an unsigned decimal literal:
the exact rational `mantissa / 10 ^ fracDigits` (an empty or malformed
string makes the constructor raise, modelled as `none`). -/
def decimal128OfString (s : String) : Option ℚ :=
  if s.data = [] then none
  else
    match parseDecLoop s.data 0 0 false with
    | some (m, fd) => some ((m : ℚ) / 10 ^ fd)
    | none => none

/-! ## load_csv_data.py — the flat-to-nested order transform -/

/-- One flat row of the orders dataframe as read back by
`pd.read_csv(ORDER_FILE, ...)`: integer columns parse to machine integers
and the unit-value column is kept in its textual source form (`str(v)` is
applied to it before parsing in the loader). -/
structure OrderLineRow where
  id : Int
  customer_id : Int
  date : String
  product_id : Int
  product_quantity : Int
  product_unit_value : String
deriving DecidableEq, Repr

/-- The composite grouping key `["id", "customer_id", "date"]` of line 84. -/
def lineKey (r : OrderLineRow) : Int × Int × String := (r.id, r.customer_id, r.date)

/-- One entry of the nested `products` array: `product_id` and
`product_quantity` pass through as integers (the `int(v)` branch of the
comprehension), `product_unit_value` becomes the Decimal128 of the
comma-normalised text. -/
structure ProductEntry where
  product_id : Int
  product_quantity : Int
  product_unit_value : Option ℚ
deriving DecidableEq, Repr

/-- The dict comprehension of lines 92–102 applied to one record. -/
def toProductEntry (r : OrderLineRow) : ProductEntry :=
  { product_id := r.product_id
    product_quantity := r.product_quantity
    product_unit_value := decimal128OfString (replaceChar r.product_unit_value ',' '.') }

/-- One nested Order document as built at lines 104–109 (`pd.to_datetime`
is applied to the key's date; no claim depends on the parsed instant, so
the document keeps the textual timestamp of the grouping key). -/
structure OrderDoc where
  id : Int
  customer_id : Int
  date : String
  products : List ProductEntry
deriving DecidableEq, Repr

/-- The distinct grouping keys of `dataframe.groupby(["id", "customer_id",
"date"])`, in order of first appearance (pandas iterates groups in sorted
key order; no claim depends on the order of the produced documents). -/
def groupKeys (df : List OrderLineRow) : List (Int × Int × String) :=
  (df.map lineKey).dedup

/-- The rows of the group with key `k`, in row order. -/
def groupRows (df : List OrderLineRow) (k : Int × Int × String) : List OrderLineRow :=
  df.filter (fun r => decide (lineKey r = k))

/-- The Order document built for group key `k` (lines 87–110). -/
def orderDocFor (df : List OrderLineRow) (k : Int × Int × String) : OrderDoc :=
  { id := k.1
    customer_id := k.2.1
    date := k.2.2
    products := (groupRows df k).map toProductEntry }

/-- `_load_orders_with_products(dataframe, collection)`: the list of Order
documents handed to `collection.insert_many` — one per distinct grouping
triple, each nesting its group's rows. -/
def loadOrdersWithProducts (df : List OrderLineRow) : List OrderDoc :=
  (groupKeys df).map (orderDocFor df)

/-! ## load_csv_data.py — the `load()` run

`load()` opens a client inside a `try`, reads and inserts the three
datasets in order, logs any exception in the `except` arm, and closes the
client in the `finally` arm when it was opened.  `_read_csv_file` logs a
missing file and returns `None`; the subsequent `.to_dict` call on `None`
then raises, which aborts the remaining steps.  The run is modelled over
the outcome of the connection attempt and the three dataframes (`none`
standing for a missing file). -/

/-- A category row of `categories.csv` as read back. -/
structure CatRow where
  id : Int
  name : String
deriving DecidableEq, Repr

/-- A product row of `products.csv` as read back (price is not persisted
on the product file). -/
structure ProdRow where
  id : Int
  name : String
  category_id : Int
deriving DecidableEq, Repr

/-- The log lines that `load()` and its helpers can emit. -/
inductive LogMsg where
  | loadingStart
  | fileNotFound (fileName : String)
  | loadingCompleted (collection : String)
  | loadError
deriving DecidableEq, Repr

/-- The observable outcome of one `load()` run: which collections received
an `insert_many` and how many documents each received, the log, and the
connection lifecycle. -/
structure LoadResult where
  inserted : List (String × Nat)
  logs : List LogMsg
  clientOpened : Bool
  clientClosed : Bool
deriving DecidableEq, Repr

/-- `_read_csv_file(file_name)` (lines 66–74): a present file yields its
dataframe; a missing one logs `Error: The file %s was not found.` and the
function falls through returning `None`. -/
def readCsvFile {α : Type} (df : Option α) (fileName : String) :
    Option α × List LogMsg :=
  match df with
  | some d => (some d, [])
  | none => (none, [.fileNotFound fileName])

/-- `_load_dataframe_mongodb(dataframe, collection)` (lines 76–79):
`None.to_dict` raises (`.error`), otherwise every record of the dataframe
is handed to `insert_many` — no row is filtered out. -/
def loadDataframeMongodb {α : Type} (df : Option (List α)) (collection : String) :
    Except Unit (Nat × LogMsg) :=
  match df with
  | none => .error ()
  | some rows => .ok (rows.length, .loadingCompleted collection)

/-- The `try` block of `load()` (lines 47–57) after a successful
connection: returns the insertions and logs accumulated up to the first
raised exception, and whether one was raised. -/
def loadTryBody (catsDf : Option (List CatRow)) (catsFile : String)
    (prodsDf : Option (List ProdRow)) (prodsFile : String)
    (ordsDf : Option (List OrderLineRow)) (ordsFile : String) :
    List (String × Nat) × List LogMsg × Bool :=
  let (cats, catsLogs) := readCsvFile catsDf catsFile
  match loadDataframeMongodb cats "categories" with
  | .error _ => ([], catsLogs, true)
  | .ok (catsN, catsDone) =>
    let (prods, prodsLogs) := readCsvFile prodsDf prodsFile
    match loadDataframeMongodb prods "products" with
    | .error _ => ([("categories", catsN)], catsLogs ++ [catsDone] ++ prodsLogs, true)
    | .ok (prodsN, prodsDone) =>
      let (ords, ordsLogs) := readCsvFile ordsDf ordsFile
      match ords with
      | none =>
        ([("categories", catsN), ("products", prodsN)],
         catsLogs ++ [catsDone] ++ prodsLogs ++ [prodsDone] ++ ordsLogs, true)
      | some odf =>
        ([("categories", catsN), ("products", prodsN),
          ("orders", (loadOrdersWithProducts odf).length)],
         catsLogs ++ [catsDone] ++ prodsLogs ++ [prodsDone] ++ ordsLogs ++
           [.loadingCompleted "orders"], false)

/-- `load()` (lines 42–62): `client = None`; in the `try`, `MongoClient`
may itself raise (connection never acquired), otherwise the body runs; the
`except` arm logs the error; the `finally` arm closes the client exactly
when `client` is not `None`. -/
def load (connectOk : Bool)
    (catsDf : Option (List CatRow)) (catsFile : String)
    (prodsDf : Option (List ProdRow)) (prodsFile : String)
    (ordsDf : Option (List OrderLineRow)) (ordsFile : String) : LoadResult :=
  if connectOk then
    let (ins, logs, raised) := loadTryBody catsDf catsFile prodsDf prodsFile ordsDf ordsFile
    { inserted := ins
      logs := .loadingStart :: logs ++ (if raised then [.loadError] else [])
      clientOpened := true
      clientClosed := true }
  else
    { inserted := []
      logs := [.loadingStart, .loadError]
      clientOpened := false
      clientClosed := false }

/-! ## create_collections.py — schema provisioning

The database is modelled as an association list of named collections.  A
collection carries its optional validator and its document count; `create`
never inserts documents, so counts suffice for the claims. -/

/-- The BSON types named by the validators. -/
inductive BsonType where
  | int
  | string
  | date
  | decimal
deriving DecidableEq, Repr

/-- A `$jsonSchema` validator, mirroring the nested dictionaries of
`create_collections.py`: an object schema lists required field names and
per-field property schemas; a property is a primitive type, or an array of
objects. -/
inductive JsonSchema where
  | prim (bsonType : BsonType) (description : String)
  | arr (description : String) (items : JsonSchema)
  | obj (required : List String) (properties : List (String × JsonSchema))
deriving Repr

/-- The validator attached to `categories` (lines 67–86). -/
def categoriesValidator : JsonSchema :=
  .obj ["id", "name"]
    [("id", .prim .int "Unique identifier for the category"),
     ("name", .prim .string "Name of the category")]

/-- The validator attached to `products` (lines 93–116). -/
def productsValidator : JsonSchema :=
  .obj ["id", "name", "category_id"]
    [("id", .prim .int "Unique identifier for the product"),
     ("name", .prim .string "Name of the product"),
     ("category_id", .prim .int "Reference to the category id")]

/-- The validator attached to `orders` (lines 122–171). -/
def ordersValidator : JsonSchema :=
  .obj ["id", "customer_id", "date", "products"]
    [("id", .prim .int "Unique identifier for the order"),
     ("customer_id", .prim .int "Reference to the customer id"),
     ("date", .prim .date "Date of the order"),
     ("products", .arr "List of products in the order"
        (.obj ["product_id", "product_quantity", "product_unit_value"]
          [("product_id", .prim .int "Unique identifier of the product"),
           ("product_quantity", .prim .int "Quantity of the product"),
           ("product_unit_value", .prim .decimal "Unit price of the product")]))]

/-- The state of one stored collection: its validator (if one was
attached) and how many documents it holds. -/
structure CollState where
  validator : Option JsonSchema
  docCount : Nat

/-- A database: named collections. -/
abbrev Db : Type := List (String × CollState)

/-- `db.drop_collection(name)`: removes every collection of that name. -/
def dropCollection (db : Db) (name : String) : Db :=
  db.filter (fun e => decide (¬ e.1 = name))

/-- `db.create_collection(name)`: a fresh empty collection with no
validator. -/
def createCollection (db : Db) (name : String) : Db :=
  db ++ [(name, ⟨none, 0⟩)]

/-- `db.command("collMod", name, validator=v)`: attaches the validator to
the collection of that name. -/
def collMod (db : Db) (name : String) (v : JsonSchema) : Db :=
  db.map (fun e => if e.1 = name then (e.1, ⟨some v, e.2.docCount⟩) else e)

/-- `_drop_and_create_collection(db, collection_name)` (lines 176–181):
drop when present, then create. -/
def dropAndCreateCollection (db : Db) (name : String) : Db :=
  createCollection (dropCollection db name) name

/-- `_setup_categories_collection(db)` (lines 64–87). -/
def setupCategoriesCollection (db : Db) : Db :=
  collMod (dropAndCreateCollection db "categories") "categories" categoriesValidator

/-- `_setup_products_collection(db)` (lines 90–117). -/
def setupProductsCollection (db : Db) : Db :=
  collMod (dropAndCreateCollection db "products") "products" productsValidator

/-- `_setup_orders_collection(db)` (lines 120–173). -/
def setupOrdersCollection (db : Db) : Db :=
  collMod (dropAndCreateCollection db "orders") "orders" ordersValidator

/-- `create()` (lines 34–61), success path: the three setups in order. -/
def createCollections (db : Db) : Db :=
  setupOrdersCollection (setupProductsCollection (setupCategoriesCollection db))

/-- Looks a collection up by name (first match). -/
def findCollection (db : Db) (name : String) : Option CollState :=
  (db.filter (fun e => decide (e.1 = name))).head?.map (·.2)

/-! ## Connection lifecycle of the top-level operations

`create()` and `load()` both follow
`client = None; try: client = MongoClient(...); ...; finally: if client:
client.close()`, so the client is closed whenever `MongoClient` returned.
`visualize_data.py` instead opens its client at module import (line 35)
and none of its four chart functions ever closes it. -/

/-- Whether a run's connection attempt and body succeed or raise. -/
inductive FailMode where
  | ok
  | connectFail
  | bodyFail
deriving DecidableEq, Repr

/-- The connection lifecycle observed over one top-level operation. -/
structure ConnTrace where
  acquired : Bool
  released : Bool
deriving DecidableEq, Repr

/-- Lifecycle of `create()` (lines 49–61): a failed `MongoClient` leaves
`client = None` and the `finally` arm skips the close; any later failure is
caught and the `finally` arm closes the acquired client. -/
def createConnTrace : FailMode → ConnTrace
  | .connectFail => ⟨false, false⟩
  | _ => ⟨true, true⟩

/-- Lifecycle of `load()` (lines 45–62), read off the `load` model: the
body failure is represented by a missing orders file. -/
def loadConnTrace (f : FailMode) : ConnTrace :=
  let r := load (f ≠ .connectFail)
    (some []) "categories.csv" (some []) "products.csv"
    (if f = .bodyFail then none else some []) "orders.csv"
  ⟨r.clientOpened, r.clientClosed⟩

/-- Lifecycle of the reporting module (`visualize_data.py` lines 35–38 and
the four chart functions): the client is acquired when the module is
imported and no code path ever closes it. -/
def visualizeConnTrace : FailMode → ConnTrace
  | .connectFail => ⟨false, false⟩
  | _ => ⟨true, false⟩

/-- The three top-level operations of the pipeline. -/
inductive TopOp where
  | provision
  | loading
  | reporting
deriving DecidableEq, Repr

/-- The connection lifecycle of each top-level operation under each
outcome. -/
def opConnTrace : TopOp → FailMode → ConnTrace
  | .provision, f => createConnTrace f
  | .loading, f => loadConnTrace f
  | .reporting, f => visualizeConnTrace f

/-! ## Theorems -/

/-- The size of one group is the multiplicity of its key among the row
keys. -/
theorem length_groupRows_eq_count (df : List OrderLineRow) (k : Int × Int × String) :
    (groupRows df k).length = @List.count _ instBEqOfDecidableEq k (df.map lineKey) := by
  have h : @List.count _ instBEqOfDecidableEq k (df.map lineKey)
      = List.countP (fun r => decide (lineKey r = k)) df := by
    rw [@List.count_eq_countP _ instBEqOfDecidableEq, List.countP_map]
    rfl
  rw [h, groupRows, ← List.countP_eq_length_filter]

/-- C1: grouping a flat orders dataframe of N rows over M distinct
`(order_id, customer_id, date)` triples produces exactly M Order
documents, one per distinct triple, whose nested `products` arrays hold
one entry per row of the corresponding group and together hold N
entries. -/
theorem C1_grouping_correctness (df : List OrderLineRow) :
    (loadOrdersWithProducts df).length = (df.map lineKey).dedup.length ∧
    (loadOrdersWithProducts df).map (fun o => (o.id, o.customer_id, o.date))
      = (df.map lineKey).dedup ∧
    ((loadOrdersWithProducts df).map (fun o => o.products.length)).sum = df.length ∧
    ∀ k ∈ groupKeys df, (orderDocFor df k).products.length = (groupRows df k).length := by
  refine ⟨by simp [loadOrdersWithProducts, groupKeys], ?_, ?_, ?_⟩
  · simp [loadOrdersWithProducts, groupKeys, orderDocFor, List.map_map]
    exact List.map_id _
  · have h := List.sum_map_count_dedup_eq_length (df.map lineKey)
    rw [List.length_map] at h
    rw [loadOrdersWithProducts, groupKeys, List.map_map, ← h]
    congr 1
    apply List.map_congr_left
    intro k _
    simpa [orderDocFor] using length_groupRows_eq_count df k
  · intro k _
    simp [orderDocFor]

/-- C1 witness: a concrete dataframe of 3 rows over 2 triples. -/
theorem C1_grouping_correctness_witness :
    (loadOrdersWithProducts
        [⟨0, 5, "d", 7, 1, "19,99"⟩, ⟨0, 5, "d", 7, 2, "10.5"⟩, ⟨1, 6, "e", 3, 1, "7"⟩]).length = 2 ∧
    (0, 5, "d") ∈ groupKeys
        [⟨0, 5, "d", 7, 1, "19,99"⟩, ⟨0, 5, "d", 7, 2, "10.5"⟩, ⟨1, 6, "e", 3, 1, "7"⟩] ∧
    (orderDocFor
        [⟨0, 5, "d", 7, 1, "19,99"⟩, ⟨0, 5, "d", 7, 2, "10.5"⟩, ⟨1, 6, "e", 3, 1, "7"⟩]
        (0, 5, "d")).products.length = 2 := by
  refine ⟨?_, by decide, ?_⟩
  · have h := (C1_grouping_correctness
      [⟨0, 5, "d", 7, 1, "19,99"⟩, ⟨0, 5, "d", 7, 2, "10.5"⟩, ⟨1, 6, "e", 3, 1, "7"⟩]).1
    rw [h]; decide
  · have h := (C1_grouping_correctness
      [⟨0, 5, "d", 7, 1, "19,99"⟩, ⟨0, 5, "d", 7, 2, "10.5"⟩, ⟨1, 6, "e", 3, 1, "7"⟩]).2.2.2
      (0, 5, "d") (by decide)
    rw [h]; decide

/-- C3: the loader never merges or de-duplicates product entries: within
each group, the `products` array has exactly one entry per row, and for
every product id the number of entries carrying it equals the number of
rows of the group referencing it — duplicate `product_id`s stay separate
entries. -/
theorem C3_no_product_merging (df : List OrderLineRow) (k : Int × Int × String)
    (_hk : k ∈ groupKeys df) :
    (orderDocFor df k).products.length = (groupRows df k).length ∧
    ∀ pid : Int,
      ((orderDocFor df k).products.filter (fun e => decide (e.product_id = pid))).length
        = ((groupRows df k).filter (fun r => decide (r.product_id = pid))).length := by
  refine ⟨by simp [orderDocFor], ?_⟩
  intro pid
  rw [orderDocFor]
  simp only [← List.countP_eq_length_filter, List.countP_map]
  apply List.countP_congr
  intro r _
  simp [toProductEntry]

/-- Prepending a digit multiplies its value by the weight of the remaining
positions. -/
theorem digitsVal_cons (c : Char) (t : List Char) :
    digitsVal (c :: t) = digitsVal t + 10 ^ t.length * digitVal c := by
  simp [digitsVal, List.map_cons, List.reverse_cons, Nat.ofDigits_append,
    Nat.ofDigits_singleton]

/-- Scanning a block of digits performs the positional accumulation: the
mantissa gains the block's value and, after the decimal point, the
fraction count gains the block's length. -/
theorem parseDecLoop_digits (ds : List Char) (hds : ∀ c ∈ ds, c.isDigit)
    (rest : List Char) (acc fd : Nat) (seen : Bool) :
    parseDecLoop (ds ++ rest) acc fd seen
      = parseDecLoop rest (acc * 10 ^ ds.length + digitsVal ds)
          (fd + if seen then ds.length else 0) seen := by
  induction ds generalizing acc fd with
  | nil => simp [digitsVal, Nat.ofDigits_nil]
  | cons c t ih =>
    have hc : c.isDigit := hds c (List.mem_cons_self ..)
    have hcdot : ¬ c = '.' := by rintro rfl; exact absurd hc (by decide)
    rw [List.cons_append]
    rw [show parseDecLoop (c :: (t ++ rest)) acc fd seen
        = parseDecLoop (t ++ rest) (acc * 10 + digitVal c)
            (if seen then fd + 1 else fd) seen by
      simp [parseDecLoop, hcdot, hc]]
    rw [ih (fun x hx => hds x (List.mem_cons_of_mem _ hx))]
    congr 1
    · rw [digitsVal_cons, List.length_cons]
      ring
    · cases seen
      · simp
      · simp only [if_pos, List.length_cons]
        omega

/-- The parse of `intDigits ++ "." ++ fracDigits` is exactly the base-10
value of the two digit blocks. -/
theorem decimal128OfString_intFrac (I F : List Char) (hI : I ≠ [])
    (hdI : ∀ c ∈ I, c.isDigit) (hdF : ∀ c ∈ F, c.isDigit) :
    decimal128OfString (String.mk (I ++ '.' :: F))
      = some ((digitsVal I : ℚ) + (digitsVal F : ℚ) / 10 ^ F.length) := by
  have hne : ¬ (String.mk (I ++ '.' :: F)).data = [] := by
    cases I with
    | nil => exact absurd rfl hI
    | cons c t => simp
  rw [decimal128OfString, if_neg hne]
  have h1 : parseDecLoop (I ++ '.' :: F) 0 0 false
      = parseDecLoop ('.' :: F) (digitsVal I) 0 false := by
    rw [parseDecLoop_digits I hdI ('.' :: F) 0 0 false]
    simp
  have h2 : parseDecLoop ('.' :: F) (digitsVal I) 0 false
      = parseDecLoop F (digitsVal I) 0 true := by
    simp [parseDecLoop]
  have h3 : parseDecLoop F (digitsVal I) 0 true
      = some (digitsVal I * 10 ^ F.length + digitsVal F, F.length) := by
    have := parseDecLoop_digits F hdF [] (digitsVal I) 0 true
    rw [List.append_nil] at this
    rw [this]
    simp [parseDecLoop]
  show (match parseDecLoop (I ++ '.' :: F) 0 0 false with
    | some (m, fd) => some ((m : ℚ) / 10 ^ fd)
    | none => none) = _
  rw [h1, h2, h3]
  push_cast
  field_simp

/-- C2: the unit value stored in each nested product entry is the exact
decimal obtained by parsing the source text after normalising a comma
decimal separator to a period; parsing a digit string reads off its exact
base-10 positional value, and in particular `"19,99"` yields a rational
exactly equal to `19.99`. -/
theorem C2_decimal_fidelity :
    (∀ df : List OrderLineRow, ∀ doc ∈ loadOrdersWithProducts df, ∀ e ∈ doc.products,
       ∃ r ∈ df, lineKey r = (doc.id, doc.customer_id, doc.date) ∧
         e.product_unit_value = decimal128OfString (replaceChar r.product_unit_value ',' '.')) ∧
    (∀ I F : List Char, I ≠ [] → (∀ c ∈ I, c.isDigit) → (∀ c ∈ F, c.isDigit) →
       decimal128OfString (String.mk (I ++ '.' :: F))
         = some ((digitsVal I : ℚ) + (digitsVal F : ℚ) / 10 ^ F.length)) ∧
    decimal128OfString (replaceChar "19,99" ',' '.') = some (19.99 : ℚ) := by
  refine ⟨?_, decimal128OfString_intFrac, ?_⟩
  case refine_2 =>
    have hrepl : replaceChar "19,99" ',' '.' = "19.99" := by decide
    have hmk : ("19.99" : String) = String.mk (['1', '9'] ++ '.' :: ['9', '9']) := rfl
    rw [hrepl, hmk,
      decimal128OfString_intFrac ['1', '9'] ['9', '9'] (by decide) (by decide) (by decide),
      show digitsVal ['1', '9'] = 19 from by decide,
      show digitsVal ['9', '9'] = 99 from by decide]
    norm_num
  intro df doc hdoc e he
  rw [loadOrdersWithProducts] at hdoc
  obtain ⟨k, hk, rfl⟩ := List.mem_map.mp hdoc
  rw [orderDocFor] at he
  obtain ⟨r, hr, rfl⟩ := List.mem_map.mp he
  have hrdf : r ∈ df ∧ lineKey r = k := by
    have := List.mem_filter.mp hr
    exact ⟨this.1, of_decide_eq_true this.2⟩
  refine ⟨r, hrdf.1, ?_, rfl⟩
  show lineKey r = (k.1, k.2.1, k.2.2)
  rw [hrdf.2]

/-- C2 witness: instantiated at a one-row dataframe carrying `"19,99"` and
at the digit blocks of `"19.99"`. -/
theorem C2_decimal_fidelity_witness :
    (∃ r ∈ [(⟨0, 5, "d", 7, 1, "19,99"⟩ : OrderLineRow)],
       lineKey r = ((orderDocFor [⟨0, 5, "d", 7, 1, "19,99"⟩] (0, 5, "d")).id,
         (orderDocFor [⟨0, 5, "d", 7, 1, "19,99"⟩] (0, 5, "d")).customer_id,
         (orderDocFor [⟨0, 5, "d", 7, 1, "19,99"⟩] (0, 5, "d")).date) ∧
       ((orderDocFor [⟨0, 5, "d", 7, 1, "19,99"⟩] (0, 5, "d")).products.get
           ⟨0, by decide⟩).product_unit_value
         = decimal128OfString (replaceChar r.product_unit_value ',' '.')) ∧
    decimal128OfString (String.mk (['1', '9'] ++ '.' :: ['9', '9']))
      = some ((digitsVal ['1', '9'] : ℚ) + (digitsVal ['9', '9'] : ℚ) / 10 ^ (2 : ℕ)) := by
  constructor
  · refine C2_decimal_fidelity.1 [⟨0, 5, "d", 7, 1, "19,99"⟩]
      (orderDocFor [⟨0, 5, "d", 7, 1, "19,99"⟩] (0, 5, "d")) ?_ _ (List.get_mem _ 0 (by decide))
    rw [show loadOrdersWithProducts [⟨0, 5, "d", 7, 1, "19,99"⟩]
        = [orderDocFor [⟨0, 5, "d", 7, 1, "19,99"⟩] (0, 5, "d")] from rfl]
    exact List.mem_singleton.mpr rfl
  · have := C2_decimal_fidelity.2.1 ['1', '9'] ['9', '9'] (by decide) (by decide) (by decide)
    simpa using this

/-- Attaching a validator to a name that was just dropped touches
nothing. -/
theorem collMod_dropCollection (db : Db) (n : String) (v : JsonSchema) :
    collMod (dropCollection db n) n v = dropCollection db n := by
  induction db with
  | nil => rfl
  | cons e t ih =>
    by_cases h : e.1 = n
    · simpa [dropCollection, List.filter_cons, h] using ih
    · have hd : dropCollection (e :: t) n = e :: dropCollection t n := by
        simp [dropCollection, List.filter_cons, h]
      rw [hd, collMod, List.map_cons, if_neg h]
      rw [show List.map _ (dropCollection t n) = collMod (dropCollection t n) n v from rfl, ih]

/-- `_drop_and_create_collection` followed by `collMod` leaves the other
collections alone and appends a fresh validated empty collection. -/
theorem setup_collection_eq (db : Db) (n : String) (v : JsonSchema) :
    collMod (dropAndCreateCollection db n) n v
      = dropCollection db n ++ [(n, ⟨some v, 0⟩)] := by
  rw [dropAndCreateCollection, createCollection, collMod, List.map_append]
  rw [show List.map _ (dropCollection db n) = collMod (dropCollection db n) n v from rfl]
  rw [collMod_dropCollection]
  simp

/-- Dropping a collection distributes over concatenation. -/
theorem dropCollection_append (l1 l2 : Db) (n : String) :
    dropCollection (l1 ++ l2) n = dropCollection l1 n ++ dropCollection l2 n := by
  simp [dropCollection, List.filter_append]

/-- The three-way drop performed by one `create()` run. -/
def dropAllThree (db : Db) : Db :=
  dropCollection (dropCollection (dropCollection db "categories") "products") "orders"

/-- The normal form of one `create()` run: every pre-existing
`categories`/`products`/`orders` collection is discarded and the three
fresh validated empty collections are appended. -/
theorem createCollections_eq (db : Db) :
    createCollections db
      = dropAllThree db
        ++ [("categories", ⟨some categoriesValidator, 0⟩),
            ("products", ⟨some productsValidator, 0⟩),
            ("orders", ⟨some ordersValidator, 0⟩)] := by
  rw [createCollections, setupCategoriesCollection, setup_collection_eq,
    setupProductsCollection, setup_collection_eq, setupOrdersCollection,
    setup_collection_eq, dropCollection_append, dropCollection_append,
    dropCollection_append, dropAllThree]
  simp [dropCollection]

/-- The three-way drop distributes over concatenation. -/
theorem dropAllThree_append (l1 l2 : Db) :
    dropAllThree (l1 ++ l2) = dropAllThree l1 ++ dropAllThree l2 := by
  simp [dropAllThree, dropCollection_append]

/-- The three-way drop is idempotent. -/
theorem dropAllThree_idem (db : Db) : dropAllThree (dropAllThree db) = dropAllThree db := by
  simp only [dropAllThree, dropCollection, List.filter_filter]
  apply List.filter_congr
  intro x _
  generalize decide (¬x.1 = "categories") = a
  generalize decide (¬x.1 = "products") = b
  generalize decide (¬x.1 = "orders") = c
  revert a b c
  decide

/-- A dropped name no longer occurs. -/
theorem filter_eq_dropCollection (db : Db) (n : String) :
    (dropCollection db n).filter (fun e => decide (e.1 = n)) = [] := by
  simp only [dropCollection, List.filter_filter]
  rw [show (fun (e : String × CollState) => decide (e.1 = n) && decide (¬e.1 = n))
      = fun e => false by
    funext e
    by_cases h : e.1 = n <;> simp [h]]
  exact List.filter_false _

/-- C6: provisioning is idempotent: a second `create()` run reproduces the
database state of the first, and after a run each of the three collections
exists with its validator attached and zero documents. -/
theorem C6_provisioning_idempotent (db : Db) :
    createCollections (createCollections db) = createCollections db ∧
    findCollection (createCollections db) "categories"
      = some ⟨some categoriesValidator, 0⟩ ∧
    findCollection (createCollections db) "products"
      = some ⟨some productsValidator, 0⟩ ∧
    findCollection (createCollections db) "orders"
      = some ⟨some ordersValidator, 0⟩ := by
  have hfind : ∀ n : String,
      findCollection (createCollections db) n
        = ((dropAllThree db).filter (fun e => decide (e.1 = n))
            ++ ([("categories", (⟨some categoriesValidator, 0⟩ : CollState)),
                 ("products", ⟨some productsValidator, 0⟩),
                 ("orders", ⟨some ordersValidator, 0⟩)].filter
                  (fun e => decide (e.1 = n)))).head?.map (·.2) := by
    intro n
    rw [findCollection, createCollections_eq, List.filter_append]
  refine ⟨?_, ?_, ?_, ?_⟩
  · rw [createCollections_eq db, createCollections_eq, dropAllThree_append,
      show dropAllThree
          [("categories", (⟨some categoriesValidator, 0⟩ : CollState)),
           ("products", ⟨some productsValidator, 0⟩),
           ("orders", ⟨some ordersValidator, 0⟩)] = [] from rfl,
      List.append_nil, dropAllThree_idem]
  · rw [hfind "categories"]
    have h1 : (dropAllThree db).filter (fun e => decide (e.1 = "categories")) = [] := by
      have : dropAllThree db
          = dropCollection (dropCollection (dropCollection db "products") "orders")
              "categories" := by
        simp only [dropAllThree, dropCollection, List.filter_filter]
        apply List.filter_congr
        intro x _
        generalize decide (¬x.1 = "categories") = a
        generalize decide (¬x.1 = "products") = b
        generalize decide (¬x.1 = "orders") = c
        revert a b c
        decide
      rw [this, filter_eq_dropCollection]
    rw [h1]
    rfl
  · rw [hfind "products"]
    have h1 : (dropAllThree db).filter (fun e => decide (e.1 = "products")) = [] := by
      have : dropAllThree db
          = dropCollection (dropCollection (dropCollection db "categories") "orders")
              "products" := by
        simp only [dropAllThree, dropCollection, List.filter_filter]
        apply List.filter_congr
        intro x _
        generalize decide (¬x.1 = "categories") = a
        generalize decide (¬x.1 = "products") = b
        generalize decide (¬x.1 = "orders") = c
        revert a b c
        decide
      rw [this, filter_eq_dropCollection]
    rw [h1]
    rfl
  · rw [hfind "orders"]
    have h1 : (dropAllThree db).filter (fun e => decide (e.1 = "orders")) = [] := by
      rw [dropAllThree, filter_eq_dropCollection]
    rw [h1]
    rfl

/-- C5: a missing input file is logged with its file name and aborts the
run — nothing after the missing dataset is inserted; and the loader never
filters rows: when all files are present, every record of every dataframe
is handed to `insert_many` (schema violations then surface as write
failures at the database, not as silently dropped rows). -/
theorem C5_missing_file_aborts
    (catsDf : Option (List CatRow)) (catsFile : String)
    (prodsDf : Option (List ProdRow)) (prodsFile : String)
    (ordsDf : Option (List OrderLineRow)) (ordsFile : String) :
    (catsDf = none →
      LogMsg.fileNotFound catsFile
          ∈ (load true catsDf catsFile prodsDf prodsFile ordsDf ordsFile).logs ∧
      (load true catsDf catsFile prodsDf prodsFile ordsDf ordsFile).inserted = []) ∧
    (∀ cats, catsDf = some cats → prodsDf = none →
      LogMsg.fileNotFound prodsFile
          ∈ (load true catsDf catsFile prodsDf prodsFile ordsDf ordsFile).logs ∧
      (load true catsDf catsFile prodsDf prodsFile ordsDf ordsFile).inserted
        = [("categories", cats.length)]) ∧
    (∀ cats prods, catsDf = some cats → prodsDf = some prods → ordsDf = none →
      LogMsg.fileNotFound ordsFile
          ∈ (load true catsDf catsFile prodsDf prodsFile ordsDf ordsFile).logs ∧
      (load true catsDf catsFile prodsDf prodsFile ordsDf ordsFile).inserted
        = [("categories", cats.length), ("products", prods.length)]) ∧
    (∀ cats prods ords, catsDf = some cats → prodsDf = some prods → ordsDf = some ords →
      (load true catsDf catsFile prodsDf prodsFile ordsDf ordsFile).inserted
        = [("categories", cats.length), ("products", prods.length),
           ("orders", (loadOrdersWithProducts ords).length)]) := by
  refine ⟨?_, ?_, ?_, ?_⟩
  · rintro rfl
    constructor <;> simp [load, loadTryBody, readCsvFile, loadDataframeMongodb]
  · rintro cats rfl rfl
    constructor <;> simp [load, loadTryBody, readCsvFile, loadDataframeMongodb]
  · rintro cats prods rfl rfl rfl
    constructor <;> simp [load, loadTryBody, readCsvFile, loadDataframeMongodb]
  · rintro cats prods ords rfl rfl rfl
    simp [load, loadTryBody, readCsvFile, loadDataframeMongodb]

/-- C5 witness: instantiated with a present categories file and a missing
products file. -/
theorem C5_missing_file_aborts_witness :
    LogMsg.fileNotFound "products.csv"
        ∈ (load true (some [⟨1, "Electronics"⟩]) "categories.csv"
            none "products.csv" (some []) "orders.csv").logs ∧
    (load true (some [⟨1, "Electronics"⟩]) "categories.csv"
        none "products.csv" (some []) "orders.csv").inserted
      = [("categories", 1)] :=
  (C5_missing_file_aborts (some [⟨1, "Electronics"⟩]) "categories.csv"
    none "products.csv" (some []) "orders.csv").2.1 [⟨1, "Electronics"⟩] rfl rfl

/-- C4 counterexample: the reporting stage acquires its connection at
module import time (visualize_data.py line 35) and, even on a fully
successful run, never releases it — refuting the claim that every
top-level operation releases its connection on every exit path. -/
theorem C4_counterexample_reporting_leak :
    (opConnTrace .reporting .ok).acquired = true ∧
    (opConnTrace .reporting .ok).released = false :=
  ⟨rfl, rfl⟩

/-- C4 (amended): the provisioning and loading operations release an
acquired connection on every exit path — success, connection failure, or
an exception in the body — while the reporting module's connection is
never released on any path. -/
theorem C4_connection_release (f : FailMode) :
    ((opConnTrace .provision f).acquired = true →
      (opConnTrace .provision f).released = true) ∧
    ((opConnTrace .loading f).acquired = true →
      (opConnTrace .loading f).released = true) ∧
    (opConnTrace .reporting f).released = false := by
  cases f with
  | ok => exact ⟨fun _ => rfl, fun _ => rfl, rfl⟩
  | connectFail => exact ⟨fun h => absurd h (by decide), fun h => absurd h (by decide), rfl⟩
  | bodyFail => exact ⟨fun _ => rfl, fun _ => rfl, rfl⟩

/-- C4 witness: the successful-run instance. -/
theorem C4_connection_release_witness :
    (opConnTrace .provision .ok).released = true ∧
    (opConnTrace .loading .ok).released = true ∧
    (opConnTrace .reporting .ok).released = false :=
  ⟨(C4_connection_release .ok).1 rfl, (C4_connection_release .ok).2.1 rfl,
   (C4_connection_release .ok).2.2⟩

/-- C3 witness: an order with two lines for product 7 keeps both
entries. -/
theorem C3_no_product_merging_witness :
    (0, 5, "d") ∈ groupKeys [⟨0, 5, "d", 7, 1, "19,99"⟩, ⟨0, 5, "d", 7, 2, "19,99"⟩] ∧
    ((orderDocFor [⟨0, 5, "d", 7, 1, "19,99"⟩, ⟨0, 5, "d", 7, 2, "19,99"⟩]
        (0, 5, "d")).products.filter (fun e => decide (e.product_id = 7))).length = 2 := by
  refine ⟨by decide, ?_⟩
  have h := (C3_no_product_merging
    [⟨0, 5, "d", 7, 1, "19,99"⟩, ⟨0, 5, "d", 7, 2, "19,99"⟩] (0, 5, "d") (by decide)).2 7
  rw [h]; decide

/-- Every row of order block `i` is the literal row built by the inner
loop for some line index `j`. -/
theorem generateOrderLines_mem (g : OrderRng) (i : Nat) (row : OrderRow)
    (h : row ∈ generateOrderLines g i) :
    ∃ j, row =
      { id := i
        customer_id := randomInt (g.cust i) 1000 6000
        date := isoformatSeconds (dateTimeBetween (g.date i)) ++ "Z"
        product_id := randomInt (g.prod i j) 1 productsData.length
        product_quantity := randomInt (g.qty i j) 1 2
        product_unit_value :=
          (productsData.getD (randomInt (g.prod i j) 1 productsData.length - 1)
            ⟨0, "", 0, 0⟩).price } := by
  simp only [generateOrderLines, List.mem_map, List.mem_range] at h
  obtain ⟨j, _, rfl⟩ := h
  exact ⟨j, rfl⟩

/-- Every row of the generated file belongs to the block of some order
index below `num_records`. -/
theorem generateOrdersCsv_mem (g : OrderRng) (n : Nat) (row : OrderRow)
    (h : row ∈ (generateOrdersCsv g n).2) :
    ∃ i, i < n ∧ row ∈ generateOrderLines g i := by
  simp only [generateOrdersCsv, ordersBlocks, List.mem_flatten, List.mem_map,
    List.mem_range] at h
  obtain ⟨b, ⟨i, hi, rfl⟩, hrow⟩ := h
  exact ⟨i, hi, hrow⟩

/-- Looking a product id from 1 to 50 up in the static table by its `id`
field lands on the entry at index `id - 1`. -/
theorem find_productsData (pid : Nat) (h1 : 1 ≤ pid) (h2 : pid ≤ 50) :
    productsData.find? (fun q => decide (q.id = pid))
      = some (productsData.getD (pid - 1) ⟨0, "", 0, 0⟩) := by
  interval_cases pid <;> rfl

/-- C7: every generated order line references an existing product id —
one of the ids 1..50 of the static table — and carries exactly that
product's static price as its unit value. -/
theorem C7_product_reference_and_price (g : OrderRng) (n : Nat) (row : OrderRow)
    (h : row ∈ (generateOrdersCsv g n).2) :
    1 ≤ row.product_id ∧ row.product_id ≤ 50 ∧
    ∃ p, productsData.find? (fun q => decide (q.id = row.product_id)) = some p ∧
      row.product_unit_value = p.price := by
  obtain ⟨i, _, hrow⟩ := generateOrdersCsv_mem g n row h
  obtain ⟨j, rfl⟩ := generateOrderLines_mem g i row hrow
  have hlen : productsData.length = 50 := rfl
  have hlo : 1 ≤ randomInt (g.prod i j) 1 productsData.length := by
    rw [randomInt]; omega
  have hhi : randomInt (g.prod i j) 1 productsData.length ≤ 50 := by
    rw [randomInt, hlen]; omega
  exact ⟨hlo, hhi, _, find_productsData _ hlo hhi, rfl⟩

/-- C7 witness: a concrete stream and a concrete row. -/
theorem C7_product_reference_and_price_witness :
    ∃ row ∈ (generateOrdersCsv
        ⟨fun _ => 0, fun _ => 0, fun _ => 0, fun _ _ => 1, fun _ _ => 0⟩ 1).2,
      1 ≤ row.product_id ∧ row.product_id ≤ 50 ∧
      ∃ p, productsData.find? (fun q => decide (q.id = row.product_id)) = some p ∧
        row.product_unit_value = p.price := by
  refine ⟨_, List.get_mem (generateOrdersCsv
      ⟨fun _ => 0, fun _ => 0, fun _ => 0, fun _ _ => 1, fun _ _ => 0⟩ 1).2 0 (by decide), ?_⟩
  exact C7_product_reference_and_price _ 1 _
    (List.get_mem _ 0 (by decide))

/-- C8: the generator emits exactly 5 categories and 50 products, and for
any requested volume it emits exactly that many orders, each with 1 to 3
product lines, line quantities of 1 or 2, and customer ids drawn from
1000..6000. -/
theorem C8_generator_shape (g : OrderRng) (n : Nat) :
    categoriesData.length = 5 ∧ productsData.length = 50 ∧
    (ordersBlocks g n).length = n ∧
    ∀ block ∈ ordersBlocks g n,
      (1 ≤ block.length ∧ block.length ≤ 3) ∧
      ∀ row ∈ block,
        (row.product_quantity = 1 ∨ row.product_quantity = 2) ∧
        1000 ≤ row.customer_id ∧ row.customer_id ≤ 6000 := by
  refine ⟨rfl, rfl, by simp [ordersBlocks], ?_⟩
  intro block hb
  simp only [ordersBlocks, List.mem_map, List.mem_range] at hb
  obtain ⟨i, _, rfl⟩ := hb
  constructor
  · rw [generateOrderLines]
    simp only [List.length_map, List.length_range, randomInt]
    omega
  · intro row hrow
    obtain ⟨j, rfl⟩ := generateOrderLines_mem g i row hrow
    refine ⟨?_, ?_, ?_⟩ <;> simp only [randomInt] <;> omega

/-- C8 witness: a concrete stream, volume, block and row. -/
theorem C8_generator_shape_witness :
    (ordersBlocks ⟨fun _ => 0, fun _ => 0, fun _ => 0, fun _ _ => 1, fun _ _ => 0⟩ 1).length = 1 ∧
    ∃ block ∈ ordersBlocks ⟨fun _ => 0, fun _ => 0, fun _ => 0, fun _ _ => 1, fun _ _ => 0⟩ 1,
      ∃ row ∈ block,
        (row.product_quantity = 1 ∨ row.product_quantity = 2) ∧
        1000 ≤ row.customer_id ∧ row.customer_id ≤ 6000 := by
  have h := C8_generator_shape ⟨fun _ => 0, fun _ => 0, fun _ => 0, fun _ _ => 1, fun _ _ => 0⟩ 1
  refine ⟨h.2.2.1, _, List.get_mem _ 0 (by decide), _, List.get_mem _ 0 (by decide), ?_⟩
  exact (h.2.2.2 _ (List.get_mem _ 0 (by decide))).2 _ (List.get_mem _ 0 (by decide))

/-- Every digit character rendered by `digitChar` is a decimal digit. -/
theorem digitChar_isDigit (n : Nat) : (digitChar n).isDigit = true := by
  rw [digitChar]
  have h : n % 10 < 10 := Nat.mod_lt _ (by norm_num)
  revert h
  generalize n % 10 = k
  intro h
  interval_cases k <;> decide

/-- The rendered timestamp with its trailing `Z` always has the ISO-8601
second-resolution shape. -/
theorem isIsoZ_isoformat (dt : DateTime) : isIsoZ (isoformatSeconds dt ++ "Z") = true := by
  have hdata : (isoformatSeconds dt ++ "Z").data
      = [digitChar (dt.year / 1000), digitChar (dt.year / 100), digitChar (dt.year / 10),
         digitChar dt.year, '-', digitChar (dt.month / 10), digitChar dt.month, '-',
         digitChar (dt.day / 10), digitChar dt.day, 'T', digitChar (dt.hour / 10),
         digitChar dt.hour, ':', digitChar (dt.minute / 10), digitChar dt.minute, ':',
         digitChar (dt.second / 10), digitChar dt.second, 'Z'] := rfl
  rw [isIsoZ, hdata]
  simp [digitChar_isDigit]

/-- The modelled `date_time_between` draw always lands on a well-formed
calendar timestamp. -/
theorem validDateTime_dateTimeBetween (r : Nat) : ValidDateTime (dateTimeBetween r) := by
  rw [ValidDateTime, dateTimeBetween]
  dsimp only
  refine ⟨by omega, by omega, by omega, by omega, by omega, by omega, by omega,
    by omega, by omega⟩

/-- C9: the generated orders file starts with the six header fields in
order, and every row's date is an ISO-8601 second-resolution timestamp of
a valid calendar instant followed by a trailing literal `Z`. -/
theorem C9_header_and_date_format (g : OrderRng) (n : Nat) :
    (generateOrdersCsv g n).1
      = ["id", "customer_id", "date", "product_id", "product_quantity",
         "product_unit_value"] ∧
    ∀ row ∈ (generateOrdersCsv g n).2,
      isIsoZ row.date = true ∧
      ∃ dt, ValidDateTime dt ∧ row.date = isoformatSeconds dt ++ "Z" := by
  refine ⟨rfl, ?_⟩
  intro row h
  obtain ⟨i, _, hrow⟩ := generateOrdersCsv_mem g n row h
  obtain ⟨j, rfl⟩ := generateOrderLines_mem g i row hrow
  exact ⟨isIsoZ_isoformat _, dateTimeBetween (g.date i),
    validDateTime_dateTimeBetween _, rfl⟩

/-- C9 witness: a concrete stream, volume and row. -/
theorem C9_header_and_date_format_witness :
    ∃ row ∈ (generateOrdersCsv
        ⟨fun _ => 0, fun _ => 0, fun _ => 0, fun _ _ => 1, fun _ _ => 0⟩ 1).2,
      isIsoZ row.date = true ∧
      ∃ dt, ValidDateTime dt ∧ row.date = isoformatSeconds dt ++ "Z" := by
  refine ⟨_, List.get_mem _ 0 (by decide), ?_⟩
  exact (C9_header_and_date_format
      ⟨fun _ => 0, fun _ => 0, fun _ => 0, fun _ _ => 1, fun _ _ => 0⟩ 1).2 _
    (List.get_mem _ 0 (by decide))

/-- C10: within one generated file the order id determines the whole
grouping triple, the distinct order ids are exactly 0..num_records-1, and
grouping by the triple yields exactly num_records orders. -/
theorem C10_id_determines_triple (g : OrderRng) (n : Nat) :
    (∀ r1 ∈ (generateOrdersCsv g n).2, ∀ r2 ∈ (generateOrdersCsv g n).2,
       r1.id = r2.id → r1.customer_id = r2.customer_id ∧ r1.date = r2.date) ∧
    ((generateOrdersCsv g n).2.map OrderRow.id).toFinset = Finset.range n ∧
    ((generateOrdersCsv g n).2.map genKey).toFinset.card = n := by
  have hchar : ∀ row ∈ (generateOrdersCsv g n).2,
      row.id < n ∧
      row.customer_id = randomInt (g.cust row.id) 1000 6000 ∧
      row.date = isoformatSeconds (dateTimeBetween (g.date row.id)) ++ "Z" := by
    intro row h
    obtain ⟨i, hi, hrow⟩ := generateOrdersCsv_mem g n row h
    obtain ⟨j, rfl⟩ := generateOrderLines_mem g i row hrow
    exact ⟨hi, rfl, rfl⟩
  have hexists : ∀ i < n, ∃ row ∈ (generateOrdersCsv g n).2, row.id = i := by
    intro i hi
    refine ⟨{ id := i
              customer_id := randomInt (g.cust i) 1000 6000
              date := isoformatSeconds (dateTimeBetween (g.date i)) ++ "Z"
              product_id := randomInt (g.prod i 0) 1 productsData.length
              product_quantity := randomInt (g.qty i 0) 1 2
              product_unit_value :=
                (productsData.getD (randomInt (g.prod i 0) 1 productsData.length - 1)
                  ⟨0, "", 0, 0⟩).price }, ?_, rfl⟩
    simp only [generateOrdersCsv, ordersBlocks, List.mem_flatten, List.mem_map,
      List.mem_range]
    refine ⟨generateOrderLines g i, ⟨i, hi, rfl⟩, ?_⟩
    simp only [generateOrderLines, List.mem_map, List.mem_range]
    exact ⟨0, by rw [randomInt]; omega, rfl⟩
  refine ⟨?_, ?_, ?_⟩
  · intro r1 h1 r2 h2 hid
    obtain ⟨_, hc1, hd1⟩ := hchar r1 h1
    obtain ⟨_, hc2, hd2⟩ := hchar r2 h2
    rw [hc1, hc2, hd1, hd2, hid]
    exact ⟨rfl, rfl⟩
  · ext a
    simp only [List.mem_toFinset, List.mem_map, Finset.mem_range]
    constructor
    · rintro ⟨row, hrow, rfl⟩
      exact (hchar row hrow).1
    · intro ha
      obtain ⟨row, hrow, hid⟩ := hexists a ha
      exact ⟨row, hrow, hid⟩
  · have himg : ((generateOrdersCsv g n).2.map genKey).toFinset
        = (Finset.range n).image (fun i =>
            (i, randomInt (g.cust i) 1000 6000,
             isoformatSeconds (dateTimeBetween (g.date i)) ++ "Z")) := by
      ext k
      simp only [List.mem_toFinset, List.mem_map, Finset.mem_image, Finset.mem_range]
      constructor
      · rintro ⟨row, hrow, rfl⟩
        obtain ⟨hlt, hc, hd⟩ := hchar row hrow
        exact ⟨row.id, hlt, by rw [genKey, hc, hd]⟩
      · rintro ⟨i, hi, rfl⟩
        obtain ⟨row, hrow, hid⟩ := hexists i hi
        obtain ⟨hlt, hc, hd⟩ := hchar row hrow
        exact ⟨row, hrow, by rw [genKey, hc, hd, hid]⟩
    rw [himg, Finset.card_image_of_injOn, Finset.card_range]
    intro a _ b _ hab
    simpa using congrArg Prod.fst hab

/-- C10 witness: a concrete stream giving one order with two lines, with
the triple-equality conjunct applied to the two rows of that order. -/
theorem C10_id_determines_triple_witness :
    (((generateOrdersCsv ⟨fun _ => 0, fun _ => 0, fun _ => 1, fun _ _ => 1, fun _ _ => 0⟩
          1).2.get ⟨0, by decide⟩).customer_id
        = ((generateOrdersCsv ⟨fun _ => 0, fun _ => 0, fun _ => 1, fun _ _ => 1, fun _ _ => 0⟩
          1).2.get ⟨1, by decide⟩).customer_id ∧
      ((generateOrdersCsv ⟨fun _ => 0, fun _ => 0, fun _ => 1, fun _ _ => 1, fun _ _ => 0⟩
          1).2.get ⟨0, by decide⟩).date
        = ((generateOrdersCsv ⟨fun _ => 0, fun _ => 0, fun _ => 1, fun _ _ => 1, fun _ _ => 0⟩
          1).2.get ⟨1, by decide⟩).date) ∧
    ((generateOrdersCsv ⟨fun _ => 0, fun _ => 0, fun _ => 1, fun _ _ => 1, fun _ _ => 0⟩
        1).2.map OrderRow.id).toFinset = Finset.range 1 ∧
    ((generateOrdersCsv ⟨fun _ => 0, fun _ => 0, fun _ => 1, fun _ _ => 1, fun _ _ => 0⟩
        1).2.map genKey).toFinset.card = 1 :=
  ⟨(C10_id_determines_triple
      ⟨fun _ => 0, fun _ => 0, fun _ => 1, fun _ _ => 1, fun _ _ => 0⟩ 1).1
      _ (List.get_mem _ 0 (by decide)) _ (List.get_mem _ 1 (by decide)) rfl,
   (C10_id_determines_triple
      ⟨fun _ => 0, fun _ => 0, fun _ => 1, fun _ _ => 1, fun _ _ => 0⟩ 1).2.1,
   (C10_id_determines_triple
      ⟨fun _ => 0, fun _ => 0, fun _ => 1, fun _ _ => 1, fun _ _ => 0⟩ 1).2.2⟩

end OnlineOrders
